import Mathlib

/-!
Shallow embedding of the telemetry core of `pi5_hub`
(ingestion dedup, timestamp normalization, debounced alert state machine,
idempotent hourly aggregation), translated from
`src/pi5_hub/repository.py`, `src/pi5_hub/alerts.py`,
`src/pi5_hub/slack_client.py` and `src/pi5_hub/models.py`.

Conventions of the embedding:
* instants are rational numbers of seconds since the Unix epoch (UTC), and
  `timedelta(minutes=m)` becomes `m * 60` seconds; the float arithmetic of
  the source (`total_seconds() / 60`, sensor comparisons) is modelled by
  exact rational arithmetic;
* SQL `NULL` becomes `Option.none`; the `alert_state` table row keeps its
  nullable columns nullable (`Option`), exactly as the database does;
* the readings table and the hourly_reports table are lists of rows, in
  insertion order;
* notification delivery (`SlackClient.post_message`) is an oracle
  `Notification → Bool`: `post_message` catches every transport error and
  returns a boolean, and the alert code discards that boolean;
* strings are processed as their character lists (ASCII, the payload
  alphabet of the devices).
-/

set_option allowUnsafeReducibility true in
attribute [semireducible] Rat.add Rat.sub Rat.mul Rat.inv Rat.ofScientific

namespace Pi5Hub

instance {ε α : Type} [DecidableEq ε] [DecidableEq α] :
    DecidableEq (Except ε α) := fun a b =>
  match a, b with
  | .ok x, .ok y => decidable_of_iff (x = y) (by simp)
  | .error x, .error y => decidable_of_iff (x = y) (by simp)
  | .ok _, .error _ => isFalse (fun h => Except.noConfusion h)
  | .error _, .ok _ => isFalse (fun h => Except.noConfusion h)

/-- A row of the `alert_state` table.  All five non-key columns are nullable
in the database, so every field is an `Option`
(`repository.py`, `update_alert_state` inserts possibly-NULL parameters). -/
structure AlertRow where
  last_reading_at : Option ℚ
  last_alert_at : Option ℚ
  last_hvac_alert_at : Option ℚ
  alert_active : Option Bool
  stale_miss_count : Option ℤ
deriving DecidableEq, Repr

/-- An update packet for `update_alert_state`: each Python keyword argument
defaulting to `None` becomes an optional field defaulting to `none`. -/
structure AlertPatch where
  last_reading_at : Option ℚ := none
  last_alert_at : Option ℚ := none
  last_hvac_alert_at : Option ℚ := none
  alert_active : Option Bool := none
  stale_miss_count : Option ℤ := none
deriving DecidableEq, Repr

/-- SQL `COALESCE(a, b)`: the first non-NULL argument. -/
def coalesce {α : Type} (a b : Option α) : Option α :=
  match a with
  | some x => some x
  | none => b

/-- `TelemetryRepository.update_alert_state` (repository.py, lines 236-264):
`INSERT ... ON CONFLICT (device_id) DO UPDATE SET f = COALESCE($i, alert_state.f)`.
With no stored row the parameters are inserted as given (NULLs included);
with a stored row each supplied NULL keeps the stored value. -/
def update_alert_state (row : Option AlertRow) (p : AlertPatch) : AlertRow :=
  match row with
  | none =>
      ⟨p.last_reading_at, p.last_alert_at, p.last_hvac_alert_at,
        p.alert_active, p.stale_miss_count⟩
  | some r =>
      ⟨coalesce p.last_reading_at r.last_reading_at,
        coalesce p.last_alert_at r.last_alert_at,
        coalesce p.last_hvac_alert_at r.last_hvac_alert_at,
        coalesce p.alert_active r.alert_active,
        coalesce p.stale_miss_count r.stale_miss_count⟩

/-- The state dictionary as `AlertManager` consumes it:
`get_alert_state` returns the row (with `COALESCE(stale_miss_count, 0)`) or
all-default values for a missing row (repository.py lines 215-234);
`alerts.py` then reads `alert_active` only through Python truthiness, under
which a NULL column and `False` coincide, so the view collapses `none` to
`false`. -/
structure AlertStateView where
  last_reading_at : Option ℚ
  last_alert_at : Option ℚ
  last_hvac_alert_at : Option ℚ
  alert_active : Bool
  stale_miss_count : ℤ
deriving DecidableEq, Repr

/-- `TelemetryRepository.get_alert_state` composed with the truthiness
reads in `alerts.py` lines 30-33. -/
def get_alert_state : Option AlertRow → AlertStateView
  | none => ⟨none, none, none, false, 0⟩
  | some r =>
      ⟨r.last_reading_at, r.last_alert_at, r.last_hvac_alert_at,
        r.alert_active.getD false, r.stale_miss_count.getD 0⟩

/-- The notification requests `AlertManager` hands to `SlackClient`
(slack_client.py: `send_stale_alert`, `send_recovery_alert`,
`send_hvac_alert`). -/
inductive Notification : Type
  | staleAlert (device_id : String) (minutes_stalled : ℤ)
  | recoveryAlert (device_id : String)
  | hvacAlert (device_id : String) (temperature threshold : ℚ)
deriving DecidableEq, Repr

/-- The alert-relevant configuration values (config.py, `Settings`). -/
structure Settings where
  inactivity_minutes : ℤ
  alert_cooldown_minutes : ℤ
  hvac_temp_threshold : ℚ
  hvac_alert_cooldown_minutes : ℤ
  stale_consecutive_misses : ℤ
  required_device_ids : List String
deriving Repr

/-- Python `int(q)` on a float: truncation toward zero. -/
def pyInt (q : ℚ) : ℤ := if q < 0 then ⌈q⌉ else ⌊q⌋

/-- `(now - t).total_seconds() / 60` (alerts.py lines 39 and 100). -/
def minutes_between (now t : ℚ) : ℚ := (now - t) / 60

/-- One entry of the `alerts_sent` list built by `check_stale_alerts`
(alerts.py lines 87-89 / 119-124). -/
structure StaleEntry where
  device_id : String
  minutes_stalled : ℤ
deriving DecidableEq, Repr

/-- Result of one device's pass through `check_stale_alerts`: the (possibly
new) `alert_state` row, the notification requests sent (paired with the
delivery result the code discards), and the `alerts_sent` entries. -/
structure StaleStepResult where
  row : Option AlertRow
  sends : List (Notification × Bool)
  alerts_sent : List StaleEntry
deriving DecidableEq, Repr

/-- The body of the per-device loop of `AlertManager.check_stale_alerts`
(alerts.py, lines 27-129), for one device.  `current_reading_at` is the
value of `repo.get_last_reading(device_id)` (MAX of `ingested_at`);
`deliver` is the notification sink. -/
def check_stale_device (s : Settings) (deliver : Notification → Bool)
    (now : ℚ) (device_id : String) (row : Option AlertRow)
    (current_reading_at : Option ℚ) : StaleStepResult :=
  let st := get_alert_state row
  let cooldown : ℚ := (s.alert_cooldown_minutes : ℚ) * 60
  match current_reading_at with
  | some cur =>
    let minutes_stalled := minutes_between now cur
    match st.last_reading_at with
    | some lr =>
      if cur > lr then
        -- new reading arrived: reset state, recovery if an alert was active
        if st.alert_active then
          let n := Notification.recoveryAlert device_id
          ⟨some (update_alert_state row
              { last_reading_at := some cur, last_alert_at := none,
                alert_active := some false, stale_miss_count := some 0 }),
            [(n, deliver n)], []⟩
        else
          ⟨some (update_alert_state row
              { last_reading_at := some cur, stale_miss_count := some 0 }),
            [], []⟩
      else if minutes_stalled < (s.inactivity_minutes : ℚ) then
        -- below the inactivity threshold: clear any accumulated misses
        if st.stale_miss_count > 0 then
          ⟨some (update_alert_state row { stale_miss_count := some 0 }), [], []⟩
        else
          ⟨row, [], []⟩
      else
        -- stalled at or past the threshold: increment the miss count
        let smc := st.stale_miss_count + 1
        let row1 := some (update_alert_state row { stale_miss_count := some smc })
        if smc ≥ s.stale_consecutive_misses then
          let can_alert :=
            match st.last_alert_at with
            | none => true
            | some la => decide (now - la ≥ cooldown)
          if can_alert then
            let n := Notification.staleAlert device_id (pyInt minutes_stalled)
            ⟨some (update_alert_state row1
                { last_alert_at := some now, alert_active := some true }),
              [(n, deliver n)],
              [⟨device_id, pyInt minutes_stalled⟩]⟩
          else
            ⟨row1, [], []⟩
        else
          ⟨row1, [], []⟩
    | none =>
      -- no high-water mark yet: record the reading, reset the miss count
      ⟨some (update_alert_state row
          { last_reading_at := some cur, stale_miss_count := some 0 }),
        [], []⟩
  | none =>
    -- no reading at all for this device (alerts.py lines 95-129)
    match st.last_reading_at with
    | none => ⟨row, [], []⟩
    | some lr =>
      let minutes_stalled := minutes_between now lr
      if minutes_stalled ≥ (s.inactivity_minutes : ℚ) then
        let smc := st.stale_miss_count + 1
        let row1 := some (update_alert_state row { stale_miss_count := some smc })
        if smc ≥ s.stale_consecutive_misses then
          let can_alert :=
            match st.last_alert_at with
            | none => true
            | some la => decide (now - la ≥ cooldown)
          if can_alert then
            let n := Notification.staleAlert device_id (pyInt minutes_stalled)
            ⟨some (update_alert_state row1
                { last_alert_at := some now, alert_active := some true }),
              [(n, deliver n)],
              [⟨device_id, pyInt minutes_stalled⟩]⟩
          else
            ⟨row1, [], []⟩
        else
          ⟨row1, [], []⟩
      else
        ⟨row, [], []⟩

/-! Section: Timestamp normalization (`TelemetryRepository._parse_device_ts`)

A parsed instant is represented as rational seconds since the Unix epoch.
CPython's `datetime` values are modelled by `PyDatetime` below;
`datetime.fromisoformat` and the three `strptime` fall-back formats are
modelled from their documented grammars (they are standard-library calls,
not code of this repository). -/

/-- A `datetime.datetime` value: calendar fields plus an optional UTC
offset in minutes (`none` = timezone-naive).  `second` carries the
microsecond part as a fraction. -/
structure PyDatetime where
  year : ℤ
  month : ℕ
  day : ℕ
  hour : ℕ
  minute : ℕ
  second : ℚ
  tzoffset : Option ℤ
deriving DecidableEq, Repr

/-- Gregorian leap year. -/
def isLeap (y : ℤ) : Bool := (y % 4 == 0 && y % 100 != 0) || y % 400 == 0

/-- Days in a month of the proleptic Gregorian calendar. -/
def daysInMonth (y : ℤ) (m : ℕ) : ℕ :=
  match m with
  | 1 => 31 | 2 => if isLeap y then 29 else 28 | 3 => 31 | 4 => 30
  | 5 => 31 | 6 => 30 | 7 => 31 | 8 => 31 | 9 => 30 | 10 => 31
  | 11 => 30 | 12 => 31 | _ => 0

/-- Days from 1970-01-01 to the given civil date (standard
`days_from_civil` calendar algorithm, floor divisions). -/
def days_from_civil (y : ℤ) (m d : ℕ) : ℤ :=
  let y' := if m ≤ 2 then y - 1 else y
  let era := Int.fdiv y' 400
  let yoe := y' - era * 400
  let doy : ℤ := Int.fdiv (153 * ((m : ℤ) + (if m > 2 then -3 else 9)) + 2) 5 + d - 1
  let doe := yoe * 365 + Int.fdiv yoe 4 - Int.fdiv yoe 100 + doy
  era * 146097 + doe - 719468

/-- The UTC instant of a `PyDatetime`, as epoch seconds: a timezone-naive
value is assumed UTC (`parsed.replace(tzinfo=timezone.utc)`), an aware one
is converted (`parsed.astimezone(timezone.utc)`) — repository.py lines
83-85 and 91. -/
def pyDatetimeToUtcEpoch (dt : PyDatetime) : ℚ :=
  (days_from_civil dt.year dt.month dt.day : ℚ) * 86400
    + dt.hour * 3600 + dt.minute * 60 + dt.second
    - (match dt.tzoffset with | none => 0 | some o => (o : ℚ) * 60)

/-- Read exactly `n` ASCII digits, returning their value and the rest. -/
def readDigitsAux (acc : ℕ) : ℕ → List Char → Option (ℕ × List Char)
  | 0, l => some (acc, l)
  | n + 1, c :: l =>
      if c.isDigit then readDigitsAux (acc * 10 + (c.toNat - 48)) n l else none
  | _ + 1, [] => none

/-- Read exactly `n` ASCII digits. -/
def readDigits (n : ℕ) (l : List Char) : Option (ℕ × List Char) :=
  readDigitsAux 0 n l

/-- Consume one expected character. -/
def expectChar (c : Char) : List Char → Option (List Char)
  | x :: l => if x = c then some l else none
  | [] => none

/-- Valid proleptic-Gregorian date within `datetime`'s year range. -/
def validDate (y : ℤ) (m d : ℕ) : Bool :=
  1 ≤ y && y ≤ 9999 && 1 ≤ m && m ≤ 12 && 1 ≤ d && d ≤ daysInMonth y m

/-- A fractional-seconds field: one to six digits after the separator. -/
def parseFraction (l : List Char) : Option (ℚ × List Char) :=
  let ds := l.takeWhile Char.isDigit
  if 1 ≤ ds.length ∧ ds.length ≤ 6 then
    some (((ds.foldl (fun a c => a * 10 + (c.toNat - 48)) 0 : ℕ) : ℚ)
        / ((10 : ℚ) ^ ds.length), l.drop ds.length)
  else
    none

/-- A UTC offset `HH:MM` in minutes (strictly less than one day, as
`datetime.timezone` requires). -/
def parseHM (l : List Char) : Option (ℤ × List Char) := do
  let (h, l1) ← readDigits 2 l
  let l2 ← expectChar ':' l1
  let (m, l3) ← readDigits 2 l2
  guard (m ≤ 59)
  guard (h * 60 + m < 1440)
  pure (((h * 60 + m : ℕ) : ℤ), l3)

/-- An optional trailing UTC offset, which must end the string. -/
def parseOffsetEnd : List Char → Option (Option ℤ)
  | [] => some none
  | '+' :: r => do
      let (o, r1) ← parseHM r
      guard (r1 = [])
      pure (some o)
  | '-' :: r => do
      let (o, r1) ← parseHM r
      guard (r1 = [])
      pure (some (-o))
  | _ => none

/-- The tail of a time field after the seconds value: optional fractional
seconds, then an optional offset ending the string. -/
def parseSecondsTail (sec : ℕ) (l : List Char) : Option (ℚ × Option ℤ) :=
  match l with
  | c :: l6 =>
      if c = '.' ∨ c = ',' then do
        let (fr, l7) ← parseFraction l6
        let off ← parseOffsetEnd l7
        pure ((sec : ℚ) + fr, off)
      else do
        let off ← parseOffsetEnd l
        pure ((sec : ℚ), off)
  | [] => pure ((sec : ℚ), none)

/-- An ISO-8601 time field `HH[:MM[:SS[.ffffff]]][±HH:MM]`, consuming the
whole remaining input. -/
def parseTimeTail (l : List Char) : Option (ℕ × ℕ × ℚ × Option ℤ) := do
  let (h, l1) ← readDigits 2 l
  guard (h ≤ 23)
  match l1 with
  | ':' :: l2 => do
      let (mi, l3) ← readDigits 2 l2
      guard (mi ≤ 59)
      match l3 with
      | ':' :: l4 => do
          let (sec, l5) ← readDigits 2 l4
          guard (sec ≤ 59)
          let (secq, off) ← parseSecondsTail sec l5
          pure (h, mi, secq, off)
      | _ => do
          let off ← parseOffsetEnd l3
          pure (h, mi, (0 : ℚ), off)
  | _ => do
      let off ← parseOffsetEnd l1
      pure (h, 0, (0 : ℚ), off)

/-- `datetime.fromisoformat`, modelled from its documented grammar:
`YYYY-MM-DD[<sep>HH[:MM[:SS[.ffffff]]][±HH:MM]]` with any one-character
date/time separator, validating field ranges.  Returns a naive value when
no offset is present. -/
def fromisoformat (l : List Char) : Option PyDatetime := do
  let (y, l1) ← readDigits 4 l
  let l2 ← expectChar '-' l1
  let (mo, l3) ← readDigits 2 l2
  let l4 ← expectChar '-' l3
  let (d, l5) ← readDigits 2 l4
  guard (validDate (y : ℤ) mo d)
  match l5 with
  | [] => pure ⟨(y : ℤ), mo, d, 0, 0, 0, none⟩
  | _sep :: l6 => do
      let (h, mi, sec, off) ← parseTimeTail l6
      pure ⟨(y : ℤ), mo, d, h, mi, sec, off⟩

/-- `datetime.strptime(ts, fmt)` for `%Y-%m-%d<sep>%H:%M:%S`, the common
core of the three fall-back formats of `_parse_device_ts`; returns the
naive datetime and the unconsumed tail. -/
def parseYmdHms (sep : Char) (l : List Char) : Option (PyDatetime × List Char) := do
  let (y, l1) ← readDigits 4 l
  let l2 ← expectChar '-' l1
  let (mo, l3) ← readDigits 2 l2
  let l4 ← expectChar '-' l3
  let (d, l5) ← readDigits 2 l4
  let l6 ← expectChar sep l5
  let (h, l7) ← readDigits 2 l6
  let l8 ← expectChar ':' l7
  let (mi, l9) ← readDigits 2 l8
  let l10 ← expectChar ':' l9
  let (sec, l11) ← readDigits 2 l10
  guard (validDate (y : ℤ) mo d && h ≤ 23 && mi ≤ 59 && sec ≤ 59)
  pure (⟨(y : ℤ), mo, d, h, mi, (sec : ℚ), none⟩, l11)

/-- `strptime` with format `%Y-%m-%dT%H:%M:%S.%fZ`. -/
def strptime_fmt1 (l : List Char) : Option PyDatetime := do
  let (dt, rest) ← parseYmdHms 'T' l
  match rest with
  | '.' :: r => do
      let (fr, r2) ← parseFraction r
      let r3 ← expectChar 'Z' r2
      guard (r3 = [])
      pure { dt with second := dt.second + fr }
  | _ => none

/-- `strptime` with format `%Y-%m-%dT%H:%M:%SZ`. -/
def strptime_fmt2 (l : List Char) : Option PyDatetime := do
  let (dt, rest) ← parseYmdHms 'T' l
  let r ← expectChar 'Z' rest
  guard (r = [])
  pure dt

/-- `strptime` with format `%Y-%m-%d %H:%M:%S`. -/
def strptime_fmt3 (l : List Char) : Option PyDatetime := do
  let (dt, rest) ← parseYmdHms ' ' l
  guard (rest = [])
  pure dt

/-- The raw `device_ts` payload value: a JSON number or string
(`TelemetryIngest.device_ts : str | int | float | None`, models.py). -/
inductive DeviceTs : Type
  | num (q : ℚ)
  | str (s : String)
deriving DecidableEq, Repr

/-- Python `str.strip()` (ASCII whitespace), over the character list. -/
def pyStrip (l : List Char) : List Char :=
  ((l.dropWhile Char.isWhitespace).reverse.dropWhile Char.isWhitespace).reverse

/-- Python `str.isdigit` on the (already stripped) character list. -/
def pyIsdigit (l : List Char) : Bool := !l.isEmpty && l.all Char.isDigit

/-- The numeric value of a digit string (`int(cleaned)`). -/
def digitsVal (l : List Char) : ℕ :=
  l.foldl (fun a c => a * 10 + (c.toNat - 48)) 0

/-- Outcome of `datetime.fromtimestamp(q, tz=timezone.utc)`:
a datetime (its UTC epoch seconds), a `ValueError` (which the caller's
`except (ValueError, TypeError)` catches), or an uncaught
`OverflowError`/`OSError` that propagates out of `insert_reading`. -/
inductive FromTs : Type
  | ok (epoch : ℚ)
  | valueError
  | fault
deriving DecidableEq, Repr

/-- Epoch seconds of `0001-01-01T00:00:00Z` (`datetime.min`, `MINYEAR = 1`). -/
def datetimeMinEpoch : ℚ := ((days_from_civil 1 1 1 * 86400 : ℤ) : ℚ)

/-- Epoch seconds of `10000-01-01T00:00:00Z` (just past `datetime.max`,
`MAXYEAR = 9999`). -/
def datetimeMaxEpoch : ℚ := ((days_from_civil 10000 1 1 * 86400 : ℤ) : ℚ)

/-- First epoch second whose civil year no longer fits a C `int`
`tm_year` (`year - 1900 > INT_MAX`, i.e. year `2147485548`): from here up,
`gmtime_r` fails with `EOVERFLOW` and CPython raises an uncaught
`OSError`.  (Values that do not even fit the 64-bit `time_t` fail earlier
with an equally uncaught `OverflowError`; that range is strictly wider,
so one boundary captures both uncaught stages.) -/
def tmYearMaxEpoch : ℚ := ((days_from_civil 2147485548 1 1 * 86400 : ℤ) : ℚ)

/-- Epoch seconds of the first civil year that still fits a C `int`
`tm_year` (`year - 1900 ≥ INT_MIN`, i.e. year `-2147481748`); below it,
`gmtime_r`/`time_t` conversion fails as above. -/
def tmYearMinEpoch : ℚ := ((days_from_civil (-2147481748) 1 1 * 86400 : ℤ) : ℚ)

/-- The instant is representable as a `datetime` (years 1-9999). -/
def inDatetimeRange (q : ℚ) : Prop :=
  datetimeMinEpoch ≤ q ∧ q < datetimeMaxEpoch

instance (q : ℚ) : Decidable (inDatetimeRange q) := by
  unfold inDatetimeRange
  infer_instance

/-- `datetime.fromtimestamp(q, tz=timezone.utc)` over exact rational epoch
seconds (CPython also rounds the float to whole microseconds — immaterial
for the integral instants of this development): a datetime for years
1-9999; `ValueError` (caught by `_parse_device_ts`) for instants outside
that range but still convertible by the platform; an uncaught
`OverflowError`/`OSError` beyond the `time_t`/`tm_year` range. -/
def fromtimestamp (q : ℚ) : FromTs :=
  if inDatetimeRange q then .ok q
  else if tmYearMinEpoch ≤ q ∧ q < tmYearMaxEpoch then .valueError
  else .fault

/-- `TelemetryRepository._parse_device_ts` (repository.py, lines 66-96).
Rules in source order, first success wins; `Except.ok none` when every
rule fails or a `ValueError`/`TypeError` is caught (the reading is still
accepted with a NULL timestamp); `Except.error ()` when
`datetime.fromtimestamp` (or the `astimezone` conversion of an aware
ISO value, which can leave the datetime range) raises an
`OverflowError`/`OSError` that the `except (ValueError, TypeError)`
clause does not catch.  A numeric value above `1e12` is milliseconds else
seconds; a digits-only stripped string is integer seconds; a trailing `Z`
is replaced by `+00:00` before `fromisoformat`; naive parses are assumed
UTC, aware ones converted to UTC; the three `strptime` fall-backs run on
the *original* (unstripped) string `ts`, as in the source. -/
def parse_device_ts : Option DeviceTs → Except Unit (Option ℚ)
  | none => .ok none
  | some (DeviceTs.num q) =>
      match fromtimestamp (if q > 1000000000000 then q / 1000 else q) with
      | .ok e => .ok (some e)
      | .valueError => .ok none
      | .fault => .error ()
  | some (DeviceTs.str s) =>
      let cleaned := pyStrip s.toList
      if pyIsdigit cleaned then
        match fromtimestamp (digitsVal cleaned) with
        | .ok e => .ok (some e)
        | .valueError => .ok none
        | .fault => .error ()
      else
        let cleaned2 :=
          if cleaned.getLast? = some 'Z' then
            cleaned.dropLast ++ ['+', '0', '0', ':', '0', '0']
          else cleaned
        match fromisoformat cleaned2 with
        | some dt =>
            match dt.tzoffset with
            | none => .ok (some (pyDatetimeToUtcEpoch dt))
            | some _ =>
                -- `parsed.astimezone(timezone.utc)` performs datetime
                -- arithmetic and raises an uncaught OverflowError when the
                -- UTC instant leaves the datetime range
                if inDatetimeRange (pyDatetimeToUtcEpoch dt) then
                  .ok (some (pyDatetimeToUtcEpoch dt))
                else .error ()
        | none =>
            match strptime_fmt1 s.toList with
            | some dt => .ok (some (pyDatetimeToUtcEpoch dt))
            | none =>
                match strptime_fmt2 s.toList with
                | some dt => .ok (some (pyDatetimeToUtcEpoch dt))
                | none =>
                    match strptime_fmt3 s.toList with
                    | some dt => .ok (some (pyDatetimeToUtcEpoch dt))
                    | none => .ok none

/-! Section: The readings table and ingestion (`TelemetryRepository.insert_reading`) -/

/-- An inbound payload (`TelemetryIngest`, models.py): sensor fields
already coerced to numeric-or-null by the pydantic validator, counters
non-negative integers defaulting to 0. -/
structure TelemetryIngest where
  device_id : String
  device_ts : Option DeviceTs := none
  request_id : Option String := none
  firmware : Option String := none
  sensor_error : Option String := none
  temperature : Option ℚ := none
  humidity : Option ℚ := none
  pressure : Option ℚ := none
  gas : Option ℚ := none
  raw_adc : Option ℤ := none
  voltage : Option ℚ := none
  stink_count : ℕ := 0
  redirect_count : ℕ := 0
  success_count : ℕ := 0
  total_requests : ℕ := 0
  uptime_cycles : ℕ := 0
  reset_count : ℕ := 0
deriving DecidableEq, Repr

/-- A row of the `readings` table, the columns of the INSERT in
`insert_reading` (the `payload` JSON-dump column is omitted: it is written
and never read by the core).  `device_ts` holds the parsed timestamp. -/
structure Reading where
  device_id : String
  device_ts : Option ℚ
  request_id : Option String
  firmware : Option String
  sensor_error : Option String
  temperature : Option ℚ
  humidity : Option ℚ
  pressure : Option ℚ
  gas : Option ℚ
  raw_adc : Option ℤ
  voltage : Option ℚ
  stink_count : ℕ
  redirect_count : ℕ
  success_count : ℕ
  total_requests : ℕ
  uptime_cycles : ℕ
  reset_count : ℕ
  ingested_at : ℚ
deriving DecidableEq, Repr

/-- The row `insert_reading` writes for a payload whose `device_ts`
parsed to `dts`, at server time `now`. -/
def readingOf (data : TelemetryIngest) (dts : Option ℚ) (now : ℚ) : Reading :=
  ⟨data.device_id, dts, data.request_id,
    data.firmware, data.sensor_error, data.temperature, data.humidity,
    data.pressure, data.gas, data.raw_adc, data.voltage,
    data.stink_count, data.redirect_count, data.success_count,
    data.total_requests, data.uptime_cycles, data.reset_count, now⟩

/-- `TelemetryRepository.insert_reading` (repository.py, lines 17-64):
`INSERT ... ON CONFLICT (device_id, request_id) WHERE request_id IS NOT
NULL DO NOTHING`, reporting `true` exactly when a row was written
(`result == "INSERT 0 1"`).  The partial uniqueness constraint fires only
for non-NULL `request_id`.  `self._parse_device_ts(data.device_ts)` is
evaluated as a query argument before anything is written: if it raises
(uncaught `OverflowError`/`OSError`), `insert_reading` raises and no row
is stored — also in the would-be-duplicate case. -/
def insert_reading (table : List Reading) (data : TelemetryIngest)
    (now : ℚ) : Except Unit (List Reading × Bool) :=
  match parse_device_ts data.device_ts with
  | .error e => .error e
  | .ok dts =>
      let conflict :=
        match data.request_id with
        | none => false
        | some rid =>
            table.any (fun r => r.device_id == data.device_id && r.request_id == some rid)
      if conflict then
        .ok (table, false)
      else
        .ok (table ++ [readingOf data dts now], true)

/-- `TelemetryRepository.get_last_reading`:
`SELECT MAX(ingested_at) FROM readings WHERE device_id = $1`. -/
def get_last_reading (table : List Reading) (device_id : String) : Option ℚ :=
  table.foldl
    (fun acc r =>
      if r.device_id == device_id then
        match acc with
        | none => some r.ingested_at
        | some m => some (max m r.ingested_at)
      else acc)
    none

/-- `TelemetryRepository.get_latest_temperature`: the newest row of the
device with a non-NULL temperature (`ORDER BY ingested_at DESC LIMIT 1`;
among equal timestamps the model keeps the earliest-inserted row, one of
the orders SQL may return). -/
def get_latest_temperature (table : List Reading) (device_id : String) :
    Option (ℚ × ℚ) :=
  table.foldl
    (fun acc r =>
      if r.device_id == device_id then
        match r.temperature with
        | none => acc
        | some t =>
            match acc with
            | none => some (r.ingested_at, t)
            | some (ts0, t0) =>
                if r.ingested_at > ts0 then some (r.ingested_at, t) else some (ts0, t0)
      else acc)
    none

/-! Section: The HVAC check and the monitor cycle -/

/-- One entry of the `hvac_alerts` list of `run_monitor_cycle`
(alerts.py line 161). -/
structure HvacEntry where
  device_id : String
  temperature : ℚ
deriving DecidableEq, Repr

/-- Result of `AlertManager.check_hvac_alert` for one device. -/
structure HvacStepResult where
  row : Option AlertRow
  sends : List (Notification × Bool)
  hvac_alert : Option HvacEntry
deriving DecidableEq, Repr

/-- `AlertManager.check_hvac_alert` (alerts.py, lines 136-168). -/
def check_hvac_device (s : Settings) (deliver : Notification → Bool)
    (now : ℚ) (device_id : String) (row : Option AlertRow)
    (table : List Reading) : HvacStepResult :=
  let st := get_alert_state row
  let cooldown : ℚ := (s.hvac_alert_cooldown_minutes : ℚ) * 60
  match get_latest_temperature table device_id with
  | none => ⟨row, [], none⟩
  | some (_ts, temp) =>
    if temp > s.hvac_temp_threshold then
      let can_alert :=
        match st.last_hvac_alert_at with
        | none => true
        | some lh => decide (now - lh ≥ cooldown)
      if can_alert then
        let n := Notification.hvacAlert device_id temp s.hvac_temp_threshold
        ⟨some (update_alert_state row { last_hvac_alert_at := some now }),
          [(n, deliver n)], some ⟨device_id, temp⟩⟩
      else
        ⟨row, [], none⟩
    else
      ⟨row, [], none⟩

/-- Substring containment over character lists (Python `needle in hay`). -/
def containsSub (hay needle : List Char) : Bool :=
  hay.tails.any (fun t => needle.isPrefixOf t)

/-- `"pico" in device_id.lower()` (alerts.py line 176): the device-class
exclusion for the HVAC check.  ASCII lowering. -/
def is_pico_class (device_id : String) : Bool :=
  containsSub (device_id.toList.map Char.toLower) ['p', 'i', 'c', 'o']

/-- The per-device `alert_state` table, keyed by device id. -/
def AlertTable : Type := String → Option AlertRow

/-- Writing one device's row back to the `alert_state` table. -/
def setRow (tbl : AlertTable) (d : String) (r : Option AlertRow) : AlertTable :=
  fun d' => if d' = d then r else tbl d'

/-- The value of `AlertManager.run_monitor_cycle` (alerts.py lines
170-185) together with the storage it leaves behind. -/
structure MonitorCycleResult where
  alert_table : AlertTable
  sends : List (Notification × Bool)
  stale_alerts : List StaleEntry
  hvac_alerts : List HvacEntry
  checked_devices : List String

/-- `AlertManager.run_monitor_cycle`: the stale check for every configured
device (threading the `alert_state` storage), then the HVAC check for
every non-"pico"-class device. -/
def run_monitor_cycle (s : Settings) (deliver : Notification → Bool)
    (now : ℚ) (tbl : AlertTable) (readings : List Reading) :
    MonitorCycleResult :=
  let stalePhase :=
    s.required_device_ids.foldl
      (fun (acc : AlertTable × List (Notification × Bool) × List StaleEntry) d =>
        let res := check_stale_device s deliver now d (acc.1 d)
          (get_last_reading readings d)
        (setRow acc.1 d res.row, acc.2.1 ++ res.sends, acc.2.2 ++ res.alerts_sent))
      (tbl, [], [])
  let hvacPhase :=
    (s.required_device_ids.filter (fun d => !is_pico_class d)).foldl
      (fun (acc : AlertTable × List (Notification × Bool) × List HvacEntry) d =>
        let res := check_hvac_device s deliver now d (acc.1 d) readings
        (setRow acc.1 d res.row, acc.2.1 ++ res.sends,
          acc.2.2 ++ (match res.hvac_alert with | none => [] | some e => [e])))
      (stalePhase.1, stalePhase.2.1, [])
  ⟨hvacPhase.1, hvacPhase.2.1, stalePhase.2.2, hvacPhase.2.2,
    s.required_device_ids⟩

/-! Section: Hourly aggregation (`aggregate_hour` / `insert_hourly_report`) -/

/-- `models.HourlyReport` (models.py, lines 65-79).  The `created_at`
bookkeeping column of the table (set to the wall clock on every write,
never read) is not part of the model. -/
structure HourlyReport where
  device_id : String
  hour_start : ℚ
  reading_count : ℕ
  avg_temperature : Option ℚ
  max_temperature : Option ℚ
  min_temperature : Option ℚ
  avg_humidity : Option ℚ
  avg_pressure : Option ℚ
  avg_gas : Option ℚ
  total_stink_count : ℕ
  total_success_count : ℕ
  total_requests : ℕ
deriving DecidableEq, Repr

/-- `ingested_at >= $1 AND ingested_at < $2` with `$2 = hour_start + 1h`. -/
def inWindow (hour_start : ℚ) (r : Reading) : Bool :=
  hour_start ≤ r.ingested_at && r.ingested_at < hour_start + 3600

/-- SQL `AVG` over the non-NULL values of a group: NULL for an empty list
(nulls are excluded, not treated as zero). -/
def sqlAvg (vals : List ℚ) : Option ℚ :=
  if vals.isEmpty then none else some (vals.sum / vals.length)

/-- SQL `MAX` over the non-NULL values of a group. -/
def sqlMax (vals : List ℚ) : Option ℚ :=
  vals.foldl
    (fun acc v => match acc with | none => some v | some m => some (max m v)) none

/-- SQL `MIN` over the non-NULL values of a group. -/
def sqlMin (vals : List ℚ) : Option ℚ :=
  vals.foldl
    (fun acc v => match acc with | none => some v | some m => some (min m v)) none

/-- One group of the aggregation query of `aggregate_hour` (repository.py,
lines 132-173): the aggregates over the device's readings in
`[hour_start, hour_start + 1h)`.  Counter columns are NOT NULL (`SUM` over
a non-empty group is their sum; the Python `or 0` only replaces the NULL
of an all-NULL sum, which cannot occur here). -/
def aggregate_device (table : List Reading) (hour_start : ℚ) (d : String) :
    HourlyReport :=
  let rows := table.filter (fun r => r.device_id == d && inWindow hour_start r)
  { device_id := d,
    hour_start := hour_start,
    reading_count := rows.length,
    avg_temperature := sqlAvg (rows.filterMap Reading.temperature),
    max_temperature := sqlMax (rows.filterMap Reading.temperature),
    min_temperature := sqlMin (rows.filterMap Reading.temperature),
    avg_humidity := sqlAvg (rows.filterMap Reading.humidity),
    avg_pressure := sqlAvg (rows.filterMap Reading.pressure),
    avg_gas := sqlAvg (rows.filterMap Reading.gas),
    total_stink_count := (rows.map Reading.stink_count).sum,
    total_success_count := (rows.map Reading.success_count).sum,
    total_requests := (rows.map Reading.total_requests).sum }

/-- The distinct device ids with a reading in the window — the groups of
the `GROUP BY device_id` query. -/
def windowDevices (table : List Reading) (hour_start : ℚ) : List String :=
  ((table.filter (inWindow hour_start)).map Reading.device_id).dedup

/-- `TelemetryRepository.aggregate_hour`: one `HourlyReport` per device
appearing in the window (`GROUP BY device_id`). -/
def aggregate_hour (table : List Reading) (hour_start : ℚ) :
    List HourlyReport :=
  (windowDevices table hour_start).map (aggregate_device table hour_start)

/-- Whether a stored report row has the upsert key of `rep`. -/
def reportKeyMatch (rep r : HourlyReport) : Bool :=
  r.device_id == rep.device_id && r.hour_start == rep.hour_start

/-- `TelemetryRepository.insert_hourly_report` (repository.py, lines
175-213): `INSERT ... ON CONFLICT (device_id, hour_start) DO UPDATE SET
<all computed columns> = EXCLUDED...` — an upsert keyed on
`(device_id, hour_start)` that overwrites every computed column. -/
def insert_hourly_report (store : List HourlyReport) (rep : HourlyReport) :
    List HourlyReport :=
  if store.any (reportKeyMatch rep) then
    store.map (fun r => if reportKeyMatch rep r then rep else r)
  else
    store ++ [rep]

/-- One run of hourly aggregation and persistence: `aggregate_hour`
followed by `insert_hourly_report` for each report, as
`ReportGenerator.generate_hourly_report` / `_distribute_report` do
(reports.py, lines 31-51). -/
def run_hourly_aggregation (table : List Reading) (hour_start : ℚ)
    (store : List HourlyReport) : List HourlyReport :=
  (aggregate_hour table hour_start).foldl insert_hourly_report store

/-! Section: Claims about the alert-state merge and recovery -/

lemma coalesce_none {α : Type} (b : Option α) : coalesce none b = b := rfl

lemma coalesce_ne_none {α : Type} (a b : Option α) (h : b ≠ none) :
    coalesce a b ≠ none := by
  cases a <;> simp [coalesce, h]

/-- Claim C10: `update_alert_state` merges with COALESCE, so for every
alert-state field a `none` in the patch retains the stored value, and a
stored non-null value can never be cleared back to null by any call. -/
theorem C10_coalesce_never_clears (r : AlertRow) (p : AlertPatch) :
    ((p.last_reading_at = none →
        (update_alert_state (some r) p).last_reading_at = r.last_reading_at) ∧
      (r.last_reading_at ≠ none →
        (update_alert_state (some r) p).last_reading_at ≠ none)) ∧
    ((p.last_alert_at = none →
        (update_alert_state (some r) p).last_alert_at = r.last_alert_at) ∧
      (r.last_alert_at ≠ none →
        (update_alert_state (some r) p).last_alert_at ≠ none)) ∧
    ((p.last_hvac_alert_at = none →
        (update_alert_state (some r) p).last_hvac_alert_at = r.last_hvac_alert_at) ∧
      (r.last_hvac_alert_at ≠ none →
        (update_alert_state (some r) p).last_hvac_alert_at ≠ none)) ∧
    ((p.alert_active = none →
        (update_alert_state (some r) p).alert_active = r.alert_active) ∧
      (r.alert_active ≠ none →
        (update_alert_state (some r) p).alert_active ≠ none)) ∧
    ((p.stale_miss_count = none →
        (update_alert_state (some r) p).stale_miss_count = r.stale_miss_count) ∧
      (r.stale_miss_count ≠ none →
        (update_alert_state (some r) p).stale_miss_count ≠ none)) := by
  refine ⟨?_, ?_, ?_, ?_, ?_⟩ <;>
    refine ⟨fun hp => ?_, fun hs => ?_⟩ <;>
    first
      | exact coalesce_ne_none _ _ hs
      | simp [update_alert_state, hp, coalesce_none]

/-- Witness for C10 at a concrete row and the empty patch. -/
theorem C10_coalesce_never_clears_witness :
    (({} : AlertPatch).last_alert_at = none ∧
      ((⟨some 1, some 2, some 3, some true, some 4⟩ : AlertRow).last_alert_at ≠ none)) ∧
    (update_alert_state (some ⟨some 1, some 2, some 3, some true, some 4⟩)
        {}).last_alert_at = some 2 ∧
    (update_alert_state (some ⟨some 1, some 2, some 3, some true, some 4⟩)
        {}).last_alert_at ≠ none := by
  refine ⟨⟨rfl, by decide⟩, ?_, ?_⟩
  · have h := (C10_coalesce_never_clears
      ⟨some 1, some 2, some 3, some true, some 4⟩ {}).2.1.1 rfl
    simpa using h
  · exact (C10_coalesce_never_clears
      ⟨some 1, some 2, some 3, some true, some 4⟩ {}).2.1.2 (by decide)

/-- Claim C1, counterexample: with `alert_active = some true`,
`last_alert_at = some 100`, a stored `last_reading_at = some 0` and a new
reading at 200, the recovery path leaves `last_alert_at = some 100`: the
`None` supplied by alerts.py line 48 is absorbed by COALESCE, so the
persisted `last_alert_at` is *not* null, contradicting the claim. -/
theorem C1_counterexample :
    ((check_stale_device ⟨5, 30, 25, 30, 4, ["d"]⟩ (fun _ => true) 300 "d"
        (some ⟨some 0, some 100, none, some true, some 4⟩) (some 200)).row.map
      AlertRow.last_alert_at) = some (some 100) ∧
    ¬ ((check_stale_device ⟨5, 30, 25, 30, 4, ["d"]⟩ (fun _ => true) 300 "d"
        (some ⟨some 0, some 100, none, some true, some 4⟩) (some 200)).row.map
      AlertRow.last_alert_at) = some none := by
  constructor <;> decide

/-- Claim C1, amended: a reading strictly newer than the stored
`last_reading_at` arriving while `alert_active` is true emits exactly one
recovery notification and persists `last_reading_at` = the new timestamp,
`alert_active = false`, `stale_miss_count = 0` — while `last_alert_at`
*retains its stored value* (the supplied `None` cannot clear it through
the COALESCE merge). -/
theorem C1_recovery (s : Settings) (deliver : Notification → Bool)
    (now : ℚ) (d : String) (r : AlertRow) (cur lr : ℚ)
    (h1 : r.alert_active = some true) (h2 : r.last_reading_at = some lr)
    (h3 : cur > lr) :
    (check_stale_device s deliver now d (some r) (some cur)).sends.map Prod.fst
        = [Notification.recoveryAlert d] ∧
    (check_stale_device s deliver now d (some r) (some cur)).row
        = some ⟨some cur, r.last_alert_at, r.last_hvac_alert_at,
            some false, some 0⟩ := by
  simp only [check_stale_device, get_alert_state, h1, h2, Option.getD_some]
  rw [if_pos h3]
  simp [update_alert_state, coalesce]

/-- Witness for C1 (amended) at the counterexample's input. -/
theorem C1_recovery_witness :
    ((⟨some 0, some 100, none, some true, some 4⟩ : AlertRow).alert_active = some true ∧
      (⟨some 0, some 100, none, some true, some 4⟩ : AlertRow).last_reading_at = some 0 ∧
      (200 : ℚ) > 0) ∧
    (check_stale_device ⟨5, 30, 25, 30, 4, ["d"]⟩ (fun _ => true) 300 "d"
        (some ⟨some 0, some 100, none, some true, some 4⟩) (some 200)).sends.map Prod.fst
      = [Notification.recoveryAlert "d"] ∧
    (check_stale_device ⟨5, 30, 25, 30, 4, ["d"]⟩ (fun _ => true) 300 "d"
        (some ⟨some 0, some 100, none, some true, some 4⟩) (some 200)).row
      = some ⟨some 200, some 100, none, some false, some 0⟩ := by
  refine ⟨⟨rfl, rfl, by decide⟩, ?_⟩
  exact C1_recovery ⟨5, 30, 25, 30, 4, ["d"]⟩ (fun _ => true) 300 "d"
    ⟨some 0, some 100, none, some true, some 4⟩ 200 0 rfl rfl (by decide)

/-- Claim C5, counterexample: a device with `stale_miss_count = 2`, *no*
reading in the store, and a stored `last_reading_at` one minute old
(`minutes_stalled = 1 < inactivity_minutes = 5`): the cycle leaves the
state row — and the miss count — unchanged at 2, not reset to 0. -/
theorem C5_counterexample :
    (check_stale_device ⟨5, 30, 25, 30, 4, ["d"]⟩ (fun _ => true) 60 "d"
        (some ⟨some 0, none, none, none, some 2⟩) none).row
      = some ⟨some 0, none, none, none, some 2⟩ ∧
    ¬ ((check_stale_device ⟨5, 30, 25, 30, 4, ["d"]⟩ (fun _ => true) 60 "d"
        (some ⟨some 0, none, none, none, some 2⟩) none).row.map
      AlertRow.stale_miss_count) = some (some 0) := by
  constructor <;> decide

/-- Claim C5, amended: the below-threshold reset of `stale_miss_count`
happens only in the branch where a current reading exists in the store
(alerts.py lines 66-69); when the reference time comes only from the
stored `AlertState.last_reading_at` (no reading in the store), a cycle
with `minutes_stalled < inactivity_minutes` leaves the state row
unchanged (alerts.py lines 95-129 have no reset arm). -/
theorem C5_reset_on_reading_only (s : Settings) (deliver : Notification → Bool)
    (now : ℚ) (d : String) (row : Option AlertRow) (cur lr : ℚ)
    (h1 : (get_alert_state row).last_reading_at = some lr) :
    ((¬ cur > lr) → minutes_between now cur < (s.inactivity_minutes : ℚ) →
      (get_alert_state row).stale_miss_count > 0 →
      (check_stale_device s deliver now d row (some cur)).row.map
          AlertRow.stale_miss_count = some (some 0)) ∧
    (minutes_between now lr < (s.inactivity_minutes : ℚ) →
      (check_stale_device s deliver now d row none).row = row) := by
  constructor
  · intro hcur hmin hsmc
    simp only [check_stale_device, h1]
    rw [if_neg hcur, if_pos hmin, if_pos hsmc]
    cases row with
    | none => simp [get_alert_state] at h1
    | some r => simp [update_alert_state, coalesce]
  · intro hmin
    simp only [check_stale_device, h1]
    rw [if_neg (not_le.mpr hmin)]

/-- Witness for C5 (amended): a reset through the current-reading branch
and an unchanged row through the stored-state-only branch. -/
theorem C5_reset_on_reading_only_witness :
    ((get_alert_state (some ⟨some 0, none, none, none, some 2⟩)).last_reading_at
        = some 0 ∧
      ¬ (0 : ℚ) > 0 ∧
      minutes_between 60 0 < ((5 : ℤ) : ℚ) ∧
      (get_alert_state (some ⟨some 0, none, none, none, some 2⟩)).stale_miss_count > 0) ∧
    (check_stale_device ⟨5, 30, 25, 30, 4, ["d"]⟩ (fun _ => true) 60 "d"
        (some ⟨some 0, none, none, none, some 2⟩) (some 0)).row.map
      AlertRow.stale_miss_count = some (some 0) ∧
    (check_stale_device ⟨5, 30, 25, 30, 4, ["d"]⟩ (fun _ => true) 60 "d"
        (some ⟨some 0, none, none, none, some 2⟩) none).row
      = some ⟨some 0, none, none, none, some 2⟩ := by
  refine ⟨⟨rfl, by decide, by decide, by decide⟩, ?_, ?_⟩
  · exact (C5_reset_on_reading_only ⟨5, 30, 25, 30, 4, ["d"]⟩ (fun _ => true) 60 "d"
      (some ⟨some 0, none, none, none, some 2⟩) 0 0 rfl).1
      (by decide) (by decide) (by decide)
  · exact (C5_reset_on_reading_only ⟨5, 30, 25, 30, 4, ["d"]⟩ (fun _ => true) 60 "d"
      (some ⟨some 0, none, none, none, some 2⟩) 0 0 rfl).2 (by decide)

/-! Section: Claims about ingestion dedup and the debounce schedule -/

lemma insert_reading_fresh (table : List Reading) (data : TelemetryIngest)
    (now : ℚ) (rid : String) (dts : Option ℚ)
    (hrid : data.request_id = some rid)
    (hdts : parse_device_ts data.device_ts = Except.ok dts)
    (hfresh : table.any
      (fun r => r.device_id == data.device_id && r.request_id == some rid) = false) :
    insert_reading table data now
      = Except.ok (table ++ [readingOf data dts now], true) := by
  simp [insert_reading, hdts, hrid, hfresh]

lemma insert_reading_dup (table : List Reading) (data : TelemetryIngest)
    (now : ℚ) (rid : String) (dts : Option ℚ)
    (hrid : data.request_id = some rid)
    (hdts : parse_device_ts data.device_ts = Except.ok dts)
    (hconf : table.any
      (fun r => r.device_id == data.device_id && r.request_id == some rid) = true) :
    insert_reading table data now = Except.ok (table, false) := by
  simp [insert_reading, hdts, hrid, hconf]

lemma insert_reading_null_rid (table : List Reading) (data : TelemetryIngest)
    (now : ℚ) (dts : Option ℚ)
    (hrid : data.request_id = none)
    (hdts : parse_device_ts data.device_ts = Except.ok dts) :
    insert_reading table data now
      = Except.ok (table ++ [readingOf data dts now], true) := by
  simp [insert_reading, hdts, hrid]

/-- Claim C2, counterexample: a payload whose `device_ts` is the 20-digit
string `"99999999999999999999"` (seconds beyond the platform's
`time_t`/`tm_year` range) makes `insert_reading` raise — with a null
`request_id` it does *not* insert a row and return true, and with a
non-null `request_id` the first call does not return `inserted = true`. -/
theorem C2_counterexample :
    insert_reading []
        { device_id := "d",
          device_ts := some (DeviceTs.str "99999999999999999999") } 10
      = Except.error () ∧
    insert_reading []
        { device_id := "d",
          device_ts := some (DeviceTs.str "99999999999999999999"),
          request_id := some "r1" } 10
      = Except.error () := by
  constructor <;> decide

/-- Claim C2, amended: for every payload whose `device_ts` parses without
raising (`_parse_device_ts` returns a value or a caught-error null):
with a non-null `request_id` and no pre-existing row for the
`(device_id, request_id)` pair, ingesting the same payload twice stores
exactly one row for the pair and returns `inserted = true` then `false`
(the second call leaves the table untouched); with a null `request_id`
every call appends a row and returns `true`.  A payload whose `device_ts`
overflows the platform's timestamp range instead raises out of
`insert_reading` and stores nothing. -/
theorem C2_dedup_idempotence :
    (∀ (table : List Reading) (data : TelemetryIngest) (now1 now2 : ℚ)
        (rid : String) (dts : Option ℚ),
      data.request_id = some rid →
      parse_device_ts data.device_ts = Except.ok dts →
      table.any (fun r => r.device_id == data.device_id && r.request_id == some rid)
          = false →
      insert_reading table data now1
          = Except.ok (table ++ [readingOf data dts now1], true) ∧
      insert_reading (table ++ [readingOf data dts now1]) data now2
          = Except.ok (table ++ [readingOf data dts now1], false) ∧
      ((table ++ [readingOf data dts now1]).filter
          (fun r => r.device_id == data.device_id && r.request_id == some rid)).length
        = 1) ∧
    (∀ (table : List Reading) (data : TelemetryIngest) (now : ℚ) (dts : Option ℚ),
      data.request_id = none →
      parse_device_ts data.device_ts = Except.ok dts →
      insert_reading table data now
          = Except.ok (table ++ [readingOf data dts now], true) ∧
      (table ++ [readingOf data dts now]).length = table.length + 1) := by
  constructor
  · intro table data now1 now2 rid dts hrid hdts hfresh
    have hkey : ((readingOf data dts now1).device_id == data.device_id &&
        (readingOf data dts now1).request_id == some rid) = true := by
      simp [readingOf, hrid]
    have h1 := insert_reading_fresh table data now1 rid dts hrid hdts hfresh
    have hconf2 : (table ++ [readingOf data dts now1]).any
        (fun r => r.device_id == data.device_id && r.request_id == some rid) = true := by
      simp only [List.any_append, List.any_cons, List.any_nil, hkey]
      simp
    have h2 := insert_reading_dup (table ++ [readingOf data dts now1]) data now2
      rid dts hrid hdts hconf2
    refine ⟨h1, h2, ?_⟩
    have hnil : table.filter
        (fun r => r.device_id == data.device_id && r.request_id == some rid) = [] := by
      rw [List.filter_eq_nil_iff]
      intro a ha
      have := List.any_eq_false.mp hfresh a ha
      simpa using this
    simp [List.filter_append, hnil, hkey]
  · intro table data now dts hrid hdts
    exact ⟨insert_reading_null_rid table data now dts hrid hdts, by simp⟩

/-- Witness for C2 at a concrete payload (no `device_ts`, so parsing
returns `ok none`) against the empty table. -/
theorem C2_dedup_idempotence_witness :
    (({ device_id := "d", request_id := some "r1" } : TelemetryIngest).request_id
        = some "r1" ∧
      parse_device_ts
        ({ device_id := "d", request_id := some "r1" } : TelemetryIngest).device_ts
        = Except.ok none ∧
      ([] : List Reading).any
        (fun r => r.device_id == "d" && r.request_id == some "r1") = false) ∧
    insert_reading [] { device_id := "d", request_id := some "r1" } 10
      = Except.ok ([readingOf { device_id := "d", request_id := some "r1" } none 10],
          true) ∧
    insert_reading [readingOf { device_id := "d", request_id := some "r1" } none 10]
        { device_id := "d", request_id := some "r1" } 20
      = Except.ok ([readingOf { device_id := "d", request_id := some "r1" } none 10],
          false) ∧
    (([readingOf { device_id := "d", request_id := some "r1" } none 10]).filter
      (fun r => r.device_id == "d" && r.request_id == some "r1")).length = 1 := by
  have h := C2_dedup_idempotence.1 [] { device_id := "d", request_id := some "r1" }
    10 20 "r1" none rfl rfl (by decide)
  exact ⟨⟨rfl, rfl, by decide⟩, by simpa using h.1, by simpa using h.2.1,
    by simpa using h.2.2⟩

/-- Claim C3: with `inactivity_minutes = 5`, `stale_consecutive_misses = 4`,
one cycle per minute and a single reading ingested at `t = 0`: the cycles
at minutes 1-4 only record the high-water mark; the cycles at minutes
5, 6, 7 increment `stale_miss_count` to 1, 2, 3 emitting nothing; the
cycle at minute 8 reaches 4 misses and emits exactly one stale alert
carrying the device id and the integer minutes stalled (8), persisting
`alert_active = true` and `last_alert_at = now`. -/
theorem C3_debounce_schedule :
    check_stale_device ⟨5, 30, 25, 30, 4, ["pico_w_1"]⟩ (fun _ => true) 60
        "pico_w_1" none (some 0)
      = ⟨some ⟨some 0, none, none, none, some 0⟩, [], []⟩ ∧
    check_stale_device ⟨5, 30, 25, 30, 4, ["pico_w_1"]⟩ (fun _ => true) 120
        "pico_w_1" (some ⟨some 0, none, none, none, some 0⟩) (some 0)
      = ⟨some ⟨some 0, none, none, none, some 0⟩, [], []⟩ ∧
    check_stale_device ⟨5, 30, 25, 30, 4, ["pico_w_1"]⟩ (fun _ => true) 180
        "pico_w_1" (some ⟨some 0, none, none, none, some 0⟩) (some 0)
      = ⟨some ⟨some 0, none, none, none, some 0⟩, [], []⟩ ∧
    check_stale_device ⟨5, 30, 25, 30, 4, ["pico_w_1"]⟩ (fun _ => true) 240
        "pico_w_1" (some ⟨some 0, none, none, none, some 0⟩) (some 0)
      = ⟨some ⟨some 0, none, none, none, some 0⟩, [], []⟩ ∧
    check_stale_device ⟨5, 30, 25, 30, 4, ["pico_w_1"]⟩ (fun _ => true) 300
        "pico_w_1" (some ⟨some 0, none, none, none, some 0⟩) (some 0)
      = ⟨some ⟨some 0, none, none, none, some 1⟩, [], []⟩ ∧
    check_stale_device ⟨5, 30, 25, 30, 4, ["pico_w_1"]⟩ (fun _ => true) 360
        "pico_w_1" (some ⟨some 0, none, none, none, some 1⟩) (some 0)
      = ⟨some ⟨some 0, none, none, none, some 2⟩, [], []⟩ ∧
    check_stale_device ⟨5, 30, 25, 30, 4, ["pico_w_1"]⟩ (fun _ => true) 420
        "pico_w_1" (some ⟨some 0, none, none, none, some 2⟩) (some 0)
      = ⟨some ⟨some 0, none, none, none, some 3⟩, [], []⟩ ∧
    check_stale_device ⟨5, 30, 25, 30, 4, ["pico_w_1"]⟩ (fun _ => true) 480
        "pico_w_1" (some ⟨some 0, none, none, none, some 3⟩) (some 0)
      = ⟨some ⟨some 0, some 480, none, some true, some 4⟩,
          [(Notification.staleAlert "pico_w_1" 8, true)],
          [⟨"pico_w_1", 8⟩]⟩ := by
  refine ⟨?_, ?_, ?_, ?_, ?_, ?_, ?_, ?_⟩ <;> decide

/-- Claim C4: on any evaluator cycle whose staleness increment reaches the
consecutive-miss threshold (in either branch — reference time from a
current reading with no newer arrival, or from the stored state only), a
stale alert is emitted *iff* `last_alert_at` is null or
`now - last_alert_at ≥ alert_cooldown`; when it fires, it persists
`last_alert_at = now` and `alert_active = true`, and any previously stored
`last_alert_at` is at least a cooldown in the past — so two stale alerts
for one device are never less than `alert_cooldown` minutes apart, and
once the cooldown has elapsed a still-stale cycle fires again. -/
theorem C4_cooldown_gate (s : Settings) (deliver : Notification → Bool)
    (now : ℚ) (d : String) (row : Option AlertRow) (cur? : Option ℚ) (ref lr : ℚ)
    (h1 : (get_alert_state row).last_reading_at = some lr)
    (h2 : cur? = some ref ∧ ¬ ref > lr ∨ cur? = none ∧ ref = lr)
    (h3 : minutes_between now ref ≥ (s.inactivity_minutes : ℚ))
    (h4 : (get_alert_state row).stale_miss_count + 1 ≥ s.stale_consecutive_misses) :
    ((check_stale_device s deliver now d row cur?).alerts_sent ≠ [] ↔
      ((get_alert_state row).last_alert_at = none ∨
        ∃ la, (get_alert_state row).last_alert_at = some la ∧
          now - la ≥ (s.alert_cooldown_minutes : ℚ) * 60)) ∧
    ((check_stale_device s deliver now d row cur?).alerts_sent ≠ [] →
      (check_stale_device s deliver now d row cur?).row.map AlertRow.last_alert_at
          = some (some now) ∧
      (check_stale_device s deliver now d row cur?).row.map AlertRow.alert_active
          = some (some true) ∧
      ∀ la, (get_alert_state row).last_alert_at = some la →
        now - la ≥ (s.alert_cooldown_minutes : ℚ) * 60) := by
  have hbranch :
      check_stale_device s deliver now d row cur? =
        (if h : (get_alert_state row).last_alert_at = none ∨
            ∃ la, (get_alert_state row).last_alert_at = some la ∧
              now - la ≥ (s.alert_cooldown_minutes : ℚ) * 60 then
          ⟨some (update_alert_state
              (some (update_alert_state row
                { stale_miss_count := some ((get_alert_state row).stale_miss_count + 1) }))
              { last_alert_at := some now, alert_active := some true }),
            [(Notification.staleAlert d (pyInt (minutes_between now ref)),
              deliver (Notification.staleAlert d (pyInt (minutes_between now ref))))],
            [⟨d, pyInt (minutes_between now ref)⟩]⟩
        else
          ⟨some (update_alert_state row
              { stale_miss_count := some ((get_alert_state row).stale_miss_count + 1) }),
            [], []⟩) := by
    rcases h2 with ⟨hc, hng⟩ | ⟨hc, hrefl⟩ <;> subst hc
    · simp only [check_stale_device, h1]
      rw [if_neg hng, if_neg (not_lt.mpr h3), if_pos h4]
      cases hla : (get_alert_state row).last_alert_at with
      | none => simp [hla]
      | some la =>
          by_cases hcd : now - la ≥ (s.alert_cooldown_minutes : ℚ) * 60
          · simp [hla, hcd]
          · simp [hla, hcd]
    · subst hrefl
      simp only [check_stale_device, h1]
      rw [if_pos h3, if_pos h4]
      cases hla : (get_alert_state row).last_alert_at with
      | none => simp [hla]
      | some la =>
          by_cases hcd : now - la ≥ (s.alert_cooldown_minutes : ℚ) * 60
          · simp [hla, hcd]
          · simp [hla, hcd]
  rw [hbranch]
  by_cases helig : (get_alert_state row).last_alert_at = none ∨
      ∃ la, (get_alert_state row).last_alert_at = some la ∧
        now - la ≥ (s.alert_cooldown_minutes : ℚ) * 60
  · rw [dif_pos helig]
    refine ⟨by simpa using helig, fun _ => ⟨?_, ?_, ?_⟩⟩
    · simp [update_alert_state, coalesce]
    · simp [update_alert_state, coalesce]
    · intro la hla
      rcases helig with hnone | ⟨la', hla', hcd⟩
      · rw [hla] at hnone; exact absurd hnone (by simp)
      · rw [hla] at hla'
        obtain rfl : la = la' := by injection hla'
        exact hcd
  · rw [dif_neg helig]
    exact ⟨by simpa using helig, fun hne => absurd rfl hne⟩

/-- Witness for C4: at minute 8 of the C3 schedule (miss count reaching 4,
never alerted), the alert fires and stamps `last_alert_at = 480`. -/
theorem C4_cooldown_gate_witness :
    ((get_alert_state (some ⟨some 0, none, none, none, some 3⟩)).last_reading_at
        = some 0 ∧
      (some (0 : ℚ) = some 0 ∧ ¬ (0 : ℚ) > 0 ∨ some (0 : ℚ) = none ∧ (0 : ℚ) = 0) ∧
      minutes_between 480 0 ≥ ((5 : ℤ) : ℚ) ∧
      (get_alert_state (some ⟨some 0, none, none, none, some 3⟩)).stale_miss_count + 1
        ≥ (4 : ℤ)) ∧
    ((check_stale_device ⟨5, 30, 25, 30, 4, ["d"]⟩ (fun _ => true) 480 "d"
        (some ⟨some 0, none, none, none, some 3⟩) (some 0)).alerts_sent ≠ [] ∧
      (check_stale_device ⟨5, 30, 25, 30, 4, ["d"]⟩ (fun _ => true) 480 "d"
        (some ⟨some 0, none, none, none, some 3⟩) (some 0)).row.map
          AlertRow.last_alert_at = some (some 480)) := by
  have h := C4_cooldown_gate ⟨5, 30, 25, 30, 4, ["d"]⟩ (fun _ => true) 480 "d"
    (some ⟨some 0, none, none, none, some 3⟩) (some 0) 0 0 rfl
    (Or.inl ⟨rfl, by decide⟩) (by decide) (by decide)
  have halerts : (check_stale_device ⟨5, 30, 25, 30, 4, ["d"]⟩ (fun _ => true) 480 "d"
      (some ⟨some 0, none, none, none, some 3⟩) (some 0)).alerts_sent ≠ [] :=
    h.1.mpr (Or.inl rfl)
  exact ⟨⟨rfl, Or.inl ⟨rfl, by decide⟩, by decide, by decide⟩,
    halerts, (h.2 halerts).1⟩

/-! Section: Claims about timestamp normalization and delivery failure -/

/-- Range nesting: every datetime-representable instant is within the
platform-convertible (`tm_year`) range. -/
lemma tmYear_of_inDatetimeRange (q : ℚ) (h : inDatetimeRange q) :
    tmYearMinEpoch ≤ q ∧ q < tmYearMaxEpoch := by
  obtain ⟨h1, h2⟩ := h
  exact ⟨le_trans (by decide) h1, lt_of_lt_of_le h2 (by decide)⟩

/-- Claim C6, counterexample: the ordinary 12-digit value `5e11` (year
≈17814) is below the `1e12` millisecond cut-off, so the claim says it is
seconds since epoch and normalizes to that instant — but the program
stores NULL (`fromtimestamp` raises a ValueError the parser catches), both
as a number and as a digits-only string; and the 20-digit string
`"99999999999999999999"` (and numeric `1e20`) make `_parse_device_ts`
raise an uncaught `OverflowError`/`OSError` — a fault — contradicting
"null on total failure, never a fault". -/
theorem C6_counterexample :
    parse_device_ts (some (DeviceTs.num 500000000000)) = Except.ok none ∧
    parse_device_ts (some (DeviceTs.str "500000000000")) = Except.ok none ∧
    parse_device_ts (some (DeviceTs.str "99999999999999999999")) = Except.error () ∧
    parse_device_ts (some (DeviceTs.num 100000000000000000000)) = Except.error () := by
  refine ⟨?_, ?_, ?_, ?_⟩ <;> decide

/-- Claim C6, amended: `_parse_device_ts` applies its rules in order with
the first successful rule winning: a numeric value strictly above `1e12`
is milliseconds since epoch, otherwise seconds, and a digits-only
stripped string is integer seconds — *provided the resulting instant
falls within datetime range (years 1-9999)*; an instant outside that
range but within the platform-convertible range yields null via a caught
`ValueError` (the reading is still accepted); an instant beyond the
`time_t`/`tm_year` range raises an uncaught error — a fault.
`1700000000` and `1700000000000` normalize to the same instant; a
trailing `Z` is replaced by `+00:00` before ISO-8601 parsing
(`"2024-01-01T00:00:00Z"` and the naive `"2024-01-01T00:00:00"` both
normalize to UTC epoch 1704067200, and an aware `+01:00` value is
converted to UTC); an unparseable string yields null. -/
theorem C6_parse_device_ts_rules :
    (∀ q : ℚ, q > 1000000000000 → inDatetimeRange (q / 1000) →
      parse_device_ts (some (DeviceTs.num q)) = Except.ok (some (q / 1000))) ∧
    (∀ q : ℚ, ¬ q > 1000000000000 → inDatetimeRange q →
      parse_device_ts (some (DeviceTs.num q)) = Except.ok (some q)) ∧
    (∀ q : ℚ, ¬ q > 1000000000000 → ¬ inDatetimeRange q →
      tmYearMinEpoch ≤ q ∧ q < tmYearMaxEpoch →
      parse_device_ts (some (DeviceTs.num q)) = Except.ok none) ∧
    (∀ q : ℚ, ¬ q > 1000000000000 → ¬ (tmYearMinEpoch ≤ q ∧ q < tmYearMaxEpoch) →
      parse_device_ts (some (DeviceTs.num q)) = Except.error ()) ∧
    parse_device_ts (some (DeviceTs.num 1700000000))
      = parse_device_ts (some (DeviceTs.num 1700000000000)) ∧
    (∀ s : String, pyIsdigit (pyStrip s.toList) = true →
      inDatetimeRange ((digitsVal (pyStrip s.toList) : ℚ)) →
      parse_device_ts (some (DeviceTs.str s))
        = Except.ok (some ((digitsVal (pyStrip s.toList) : ℚ)))) ∧
    parse_device_ts (some (DeviceTs.str "2024-01-01T00:00:00Z"))
      = Except.ok (some 1704067200) ∧
    parse_device_ts (some (DeviceTs.str "2024-01-01T00:00:00"))
      = Except.ok (some 1704067200) ∧
    parse_device_ts (some (DeviceTs.str "2024-01-01T01:00:00+01:00"))
      = Except.ok (some 1704067200) ∧
    parse_device_ts (some (DeviceTs.str "not-a-timestamp")) = Except.ok none ∧
    parse_device_ts none = Except.ok none := by
  refine ⟨fun q h hr => ?_, fun q h hr => ?_, fun q h hnr htm => ?_,
    fun q h htm => ?_, by decide, fun s h hr => ?_,
    by decide, by decide, by decide, by decide, rfl⟩
  · simp [parse_device_ts, fromtimestamp, h, hr]
  · simp [parse_device_ts, fromtimestamp, h, hr]
  · simp [parse_device_ts, fromtimestamp, h, hnr, htm]
  · have hnr : ¬ inDatetimeRange q := fun hdr => htm (tmYear_of_inDatetimeRange q hdr)
    simp [parse_device_ts, fromtimestamp, h, hnr, htm]
  · have h' : pyIsdigit (pyStrip s.data) = true := h
    have hr' : inDatetimeRange ((digitsVal (pyStrip s.data) : ℚ)) := hr
    simp [parse_device_ts, fromtimestamp, h, h', hr, hr']

/-- Witness for C6 at concrete inputs for each hypothesis-bearing rule:
an in-range millisecond value, an in-range second value, an
out-of-datetime-range second value (caught, null), a value beyond the
convertible range (fault), and an in-range digit string. -/
theorem C6_parse_device_ts_rules_witness :
    ((2000000000000 : ℚ) > 1000000000000 ∧
      inDatetimeRange ((2000000000000 : ℚ) / 1000) ∧
      parse_device_ts (some (DeviceTs.num 2000000000000))
        = Except.ok (some (2000000000000 / 1000))) ∧
    (¬ (1700000000 : ℚ) > 1000000000000 ∧ inDatetimeRange (1700000000 : ℚ) ∧
      parse_device_ts (some (DeviceTs.num 1700000000))
        = Except.ok (some 1700000000)) ∧
    (¬ (500000000000 : ℚ) > 1000000000000 ∧
      ¬ inDatetimeRange (500000000000 : ℚ) ∧
      (tmYearMinEpoch ≤ (500000000000 : ℚ) ∧ (500000000000 : ℚ) < tmYearMaxEpoch) ∧
      parse_device_ts (some (DeviceTs.num 500000000000)) = Except.ok none) ∧
    (¬ (-100000000000000000 : ℚ) > 1000000000000 ∧
      ¬ (tmYearMinEpoch ≤ (-100000000000000000 : ℚ) ∧
          (-100000000000000000 : ℚ) < tmYearMaxEpoch) ∧
      parse_device_ts (some (DeviceTs.num (-100000000000000000)))
        = Except.error ()) ∧
    (pyIsdigit (pyStrip " 42 ".toList) = true ∧
      inDatetimeRange ((digitsVal (pyStrip " 42 ".toList) : ℚ)) ∧
      parse_device_ts (some (DeviceTs.str " 42 "))
        = Except.ok (some ((digitsVal (pyStrip " 42 ".toList) : ℚ)))) := by
  refine ⟨⟨by decide, by decide, ?_⟩, ⟨by decide, by decide, ?_⟩,
    ⟨by decide, by decide, by decide, ?_⟩, ⟨by decide, by decide, ?_⟩,
    ⟨by decide, by decide, ?_⟩⟩
  · exact C6_parse_device_ts_rules.1 2000000000000 (by decide) (by decide)
  · exact C6_parse_device_ts_rules.2.1 1700000000 (by decide) (by decide)
  · exact C6_parse_device_ts_rules.2.2.1 500000000000 (by decide) (by decide) (by decide)
  · exact C6_parse_device_ts_rules.2.2.2.1 (-100000000000000000) (by decide) (by decide)
  · exact C6_parse_device_ts_rules.2.2.2.2.2.1 " 42 " (by decide) (by decide)

/-- Claim C9: notification delivery results are discarded by the alert code
(`post_message` returns a boolean and never raises): for any delivery
oracle — in particular an always-failing one — the persisted alert-state
row, the set of notification requests and the alert lists are identical to
those of a run in which every delivery succeeds. -/
theorem C9_delivery_failure_ignored (s : Settings) (deliver : Notification → Bool)
    (now : ℚ) (d : String) (row : Option AlertRow) (cur? : Option ℚ)
    (table : List Reading) :
    ((check_stale_device s deliver now d row cur?).row
        = (check_stale_device s (fun _ => true) now d row cur?).row ∧
      (check_stale_device s deliver now d row cur?).sends.map Prod.fst
        = (check_stale_device s (fun _ => true) now d row cur?).sends.map Prod.fst ∧
      (check_stale_device s deliver now d row cur?).alerts_sent
        = (check_stale_device s (fun _ => true) now d row cur?).alerts_sent) ∧
    ((check_hvac_device s deliver now d row table).row
        = (check_hvac_device s (fun _ => true) now d row table).row ∧
      (check_hvac_device s deliver now d row table).hvac_alert
        = (check_hvac_device s (fun _ => true) now d row table).hvac_alert) := by
  constructor
  · refine ⟨?_, ?_, ?_⟩ <;>
      (unfold check_stale_device; repeat' first | rfl | split | dsimp only)
  · refine ⟨?_, ?_⟩ <;>
      (unfold check_hvac_device; repeat' first | rfl | split | dsimp only)

/-! Section: Claims about the HVAC check -/

lemma check_hvac_device_alert_device (s : Settings) (deliver : Notification → Bool)
    (now : ℚ) (d : String) (row : Option AlertRow) (table : List Reading)
    (e : HvacEntry)
    (he : (check_hvac_device s deliver now d row table).hvac_alert = some e) :
    e.device_id = d := by
  unfold check_hvac_device at he
  revert he
  repeat' first
    | (intro he; first | exact Option.noConfusion he | (cases he; rfl))
    | split
    | dsimp only

lemma hvac_fold_mem (s : Settings) (deliver : Notification → Bool) (now : ℚ)
    (readings : List Reading) (ds : List String)
    (acc : AlertTable × List (Notification × Bool) × List HvacEntry)
    (e : HvacEntry)
    (he : e ∈ (ds.foldl
      (fun acc d =>
        let res := check_hvac_device s deliver now d (acc.1 d) readings
        (setRow acc.1 d res.row, acc.2.1 ++ res.sends,
          acc.2.2 ++ (match res.hvac_alert with | none => [] | some e => [e])))
      acc).2.2) :
    e ∈ acc.2.2 ∨ ∃ d ∈ ds, e.device_id = d := by
  induction ds generalizing acc with
  | nil => exact Or.inl (by simpa using he)
  | cons d ds ih =>
      rw [List.foldl_cons] at he
      rcases ih _ he with hmem | ⟨d', hd', hdev⟩
      · dsimp only at hmem
        rcases List.mem_append.mp hmem with hl | hr
        · exact Or.inl hl
        · revert hr
          cases halert : (check_hvac_device s deliver now d (acc.1 d) readings).hvac_alert with
          | none => intro hr; cases hr
          | some e' =>
              intro hr
              have : e = e' := by simpa using hr
              subst this
              exact Or.inr ⟨d, List.mem_cons_self d ds,
                check_hvac_device_alert_device s deliver now d (acc.1 d) readings e halert⟩
      · exact Or.inr ⟨d', List.mem_cons_of_mem d hd', hdev⟩

/-- Claim C7: the monitor cycle runs the HVAC check only for configured
devices whose lowered id does not contain `"pico"` (every HVAC alert of a
cycle names such a device); for a device with a most recent non-null
temperature reading, an HVAC alert fires *iff* the temperature strictly
exceeds `hvac_temp_threshold` (equality never alerts) and
`last_hvac_alert_at` is null or at least `hvac_alert_cooldown` in the
past; firing persists `last_hvac_alert_at = now`; and the HVAC path only
ever sends HVAC notifications — never a recovery. -/
theorem C7_hvac_gate (s : Settings) (deliver : Notification → Bool) (now : ℚ)
    (d : String) (row : Option AlertRow) (table : List Reading) (ts temp : ℚ)
    (h : get_latest_temperature table d = some (ts, temp)) :
    (∀ (tbl : AlertTable) (readings : List Reading) (e : HvacEntry),
        e ∈ (run_monitor_cycle s deliver now tbl readings).hvac_alerts →
        is_pico_class e.device_id = false ∧ e.device_id ∈ s.required_device_ids) ∧
    ((check_hvac_device s deliver now d row table).hvac_alert ≠ none ↔
      (temp > s.hvac_temp_threshold ∧
        ((get_alert_state row).last_hvac_alert_at = none ∨
          ∃ lh, (get_alert_state row).last_hvac_alert_at = some lh ∧
            now - lh ≥ (s.hvac_alert_cooldown_minutes : ℚ) * 60))) ∧
    ((check_hvac_device s deliver now d row table).hvac_alert ≠ none →
      (check_hvac_device s deliver now d row table).row.map AlertRow.last_hvac_alert_at
        = some (some now)) ∧
    (∀ p ∈ (check_hvac_device s deliver now d row table).sends,
      ∃ t, p.1 = Notification.hvacAlert d t s.hvac_temp_threshold) := by
  have hbranch :
      check_hvac_device s deliver now d row table =
        (if hc : temp > s.hvac_temp_threshold ∧
            ((get_alert_state row).last_hvac_alert_at = none ∨
              ∃ lh, (get_alert_state row).last_hvac_alert_at = some lh ∧
                now - lh ≥ (s.hvac_alert_cooldown_minutes : ℚ) * 60) then
          ⟨some (update_alert_state row { last_hvac_alert_at := some now }),
            [(Notification.hvacAlert d temp s.hvac_temp_threshold,
              deliver (Notification.hvacAlert d temp s.hvac_temp_threshold))],
            some ⟨d, temp⟩⟩
        else
          ⟨row, [], none⟩) := by
    simp only [check_hvac_device, h]
    by_cases ht : temp > s.hvac_temp_threshold
    · cases hlh : (get_alert_state row).last_hvac_alert_at with
      | none => simp [ht, hlh]
      | some lh =>
          by_cases hcd : now - lh ≥ (s.hvac_alert_cooldown_minutes : ℚ) * 60
          · simp [ht, hlh, hcd]
          · have hnc : ¬ (temp > s.hvac_temp_threshold ∧
                ((some lh : Option ℚ) = none ∨ ∃ lh', (some lh : Option ℚ) = some lh' ∧
                  now - lh' ≥ (s.hvac_alert_cooldown_minutes : ℚ) * 60)) := by
              rintro ⟨-, hno | ⟨lh', hlh', hcd'⟩⟩
              · exact Option.noConfusion hno
              · injection hlh' with he
                exact hcd (he ▸ hcd')
            simp only [hlh, if_pos ht]
            rw [if_neg (by simpa using hcd), dif_neg hnc]
    · rw [if_neg ht, dif_neg (fun hc => ht hc.1)]
  refine ⟨?_, ?_, ?_, ?_⟩
  · intro tbl readings e he
    unfold run_monitor_cycle at he
    rcases hvac_fold_mem s deliver now readings _ _ e he with hmem | ⟨d', hd', hdev⟩
    · cases hmem
    · rcases List.mem_filter.mp hd' with ⟨hreq, hpico⟩
      rw [hdev]
      exact ⟨by simpa using hpico, hreq⟩
  · rw [hbranch]
    by_cases hc : temp > s.hvac_temp_threshold ∧
        ((get_alert_state row).last_hvac_alert_at = none ∨
          ∃ lh, (get_alert_state row).last_hvac_alert_at = some lh ∧
            now - lh ≥ (s.hvac_alert_cooldown_minutes : ℚ) * 60)
    · rw [dif_pos hc]; exact iff_of_true (by simp) hc
    · rw [dif_neg hc]; exact iff_of_false (by simp) hc
  · rw [hbranch]
    by_cases hc : temp > s.hvac_temp_threshold ∧
        ((get_alert_state row).last_hvac_alert_at = none ∨
          ∃ lh, (get_alert_state row).last_hvac_alert_at = some lh ∧
            now - lh ≥ (s.hvac_alert_cooldown_minutes : ℚ) * 60)
    · rw [dif_pos hc]
      intro _
      cases row <;> simp [update_alert_state, coalesce]
    · rw [dif_neg hc]
      intro hne
      exact absurd rfl hne
  · rw [hbranch]
    by_cases hc : temp > s.hvac_temp_threshold ∧
        ((get_alert_state row).last_hvac_alert_at = none ∨
          ∃ lh, (get_alert_state row).last_hvac_alert_at = some lh ∧
            now - lh ≥ (s.hvac_alert_cooldown_minutes : ℚ) * 60)
    · rw [dif_pos hc]
      intro p hp
      have : p = (Notification.hvacAlert d temp s.hvac_temp_threshold,
          deliver (Notification.hvacAlert d temp s.hvac_temp_threshold)) := by
        simpa using hp
      exact ⟨temp, by rw [this]⟩
    · rw [dif_neg hc]
      intro p hp
      cases hp

/-- Witness for C7: a single 30-degree reading of `esp32_c6` against a
25-degree threshold and no previous HVAC alert fires and stamps
`last_hvac_alert_at = now`. -/
theorem C7_hvac_gate_witness :
    (get_latest_temperature
        [⟨"esp32_c6", none, none, none, none, some 30, none, none, none, none,
          none, 0, 0, 0, 0, 0, 0, 5⟩] "esp32_c6" = some (5, 30) ∧
      (30 : ℚ) > 25) ∧
    (check_hvac_device ⟨5, 30, 25, 30, 4, ["esp32_c6"]⟩ (fun _ => true) 600 "esp32_c6"
        none
        [⟨"esp32_c6", none, none, none, none, some 30, none, none, none, none,
          none, 0, 0, 0, 0, 0, 0, 5⟩]).hvac_alert ≠ none ∧
    (check_hvac_device ⟨5, 30, 25, 30, 4, ["esp32_c6"]⟩ (fun _ => true) 600 "esp32_c6"
        none
        [⟨"esp32_c6", none, none, none, none, some 30, none, none, none, none,
          none, 0, 0, 0, 0, 0, 0, 5⟩]).row.map AlertRow.last_hvac_alert_at
      = some (some 600) := by
  have h := C7_hvac_gate ⟨5, 30, 25, 30, 4, ["esp32_c6"]⟩ (fun _ => true) 600 "esp32_c6"
    none
    [⟨"esp32_c6", none, none, none, none, some 30, none, none, none, none,
      none, 0, 0, 0, 0, 0, 0, 5⟩] 5 30 (by decide)
  have halert := h.2.1.mpr ⟨by decide, Or.inl rfl⟩
  exact ⟨⟨by decide, by decide⟩, halert, h.2.2.1 halert⟩

/-! Section: Claims about hourly aggregation idempotence -/

lemma reportKeyMatch_self (r : HourlyReport) : reportKeyMatch r r = true := by
  simp [reportKeyMatch]

lemma reportKeyMatch_false_of_hour (rep r : HourlyReport)
    (hr : r.hour_start ≠ rep.hour_start) : reportKeyMatch rep r = false := by
  simp [reportKeyMatch, hr]

lemma insert_hourly_report_fresh (store : List HourlyReport) (rep : HourlyReport)
    (hany : store.any (reportKeyMatch rep) = false) :
    insert_hourly_report store rep = store ++ [rep] := by
  rw [insert_hourly_report, hany]
  simp

lemma insert_hourly_report_present (store : List HourlyReport) (rep : HourlyReport)
    (hany : store.any (reportKeyMatch rep) = true)
    (huniq : ∀ r ∈ store, reportKeyMatch rep r = true → r = rep) :
    insert_hourly_report store rep = store := by
  rw [insert_hourly_report, hany]
  simp only [if_true]
  have hmap : ∀ r ∈ store, (if reportKeyMatch rep r then rep else r) = r := by
    intro r hrmem
    by_cases hk : reportKeyMatch rep r
    · rw [if_pos hk, huniq r hrmem hk]
    · rw [if_neg hk]
  calc store.map (fun r => if reportKeyMatch rep r then rep else r)
      = store.map id := List.map_congr_left hmap
    _ = store := List.map_id store

lemma foldl_insert_fresh :
    ∀ (reps store : List HourlyReport),
    (∀ rep ∈ reps, ∀ r ∈ store, reportKeyMatch rep r = false) →
    reps.Pairwise (fun a b => reportKeyMatch b a = false) →
    reps.foldl insert_hourly_report store = store ++ reps := by
  intro reps
  induction reps with
  | nil => intro store _ _; simp
  | cons rep rest ih =>
      intro store hdisj hpair
      rw [List.foldl_cons]
      have hany : store.any (reportKeyMatch rep) = false := by
        rw [List.any_eq_false]
        intro r hrmem
        simp [hdisj rep (List.mem_cons_self rep rest) r hrmem]
      rw [insert_hourly_report_fresh store rep hany]
      have hpc := List.pairwise_cons.mp hpair
      have hdisj' : ∀ rep' ∈ rest, ∀ r ∈ store ++ [rep],
          reportKeyMatch rep' r = false := by
        intro rep' hrep' r hrmem
        rcases List.mem_append.mp hrmem with hl | hr
        · exact hdisj rep' (List.mem_cons_of_mem rep hrep') r hl
        · have : r = rep := by simpa using hr
          rw [this]
          exact hpc.1 rep' hrep'
      rw [ih (store ++ [rep]) hdisj' hpc.2]
      simp

lemma foldl_insert_present :
    ∀ (reps store : List HourlyReport),
    (∀ rep ∈ reps, rep ∈ store) →
    (∀ rep ∈ reps, ∀ r ∈ store, reportKeyMatch rep r = true → r = rep) →
    reps.foldl insert_hourly_report store = store := by
  intro reps
  induction reps with
  | nil => intro store _ _; simp
  | cons rep rest ih =>
      intro store hmem huniq
      rw [List.foldl_cons]
      have hany : store.any (reportKeyMatch rep) = true := by
        rw [List.any_eq_true]
        exact ⟨rep, hmem rep (List.mem_cons_self rep rest), reportKeyMatch_self rep⟩
      rw [insert_hourly_report_present store rep hany
        (huniq rep (List.mem_cons_self rep rest))]
      exact ih store (fun r hr => hmem r (List.mem_cons_of_mem rep hr))
        (fun r hr => huniq r (List.mem_cons_of_mem rep hr))

lemma aggregate_device_device_id (table : List Reading) (hs : ℚ) (d : String) :
    (aggregate_device table hs d).device_id = d := rfl

lemma aggregate_device_hour_start (table : List Reading) (hs : ℚ) (d : String) :
    (aggregate_device table hs d).hour_start = hs := rfl

/-- Claim C8: starting from a `hourly_reports` store with no row for
`hour_start`, running aggregation-and-persistence twice over a fixed
readings table leaves the store of the first run unchanged (the second
upsert pass overwrites each row with identical computed values), and that
store holds exactly one row per device with at least one reading in
`[hour_start, hour_start + 1h)` and no row for any other device. -/
theorem C8_aggregation_idempotent (table : List Reading) (hs : ℚ)
    (store : List HourlyReport) (hstore : ∀ r ∈ store, r.hour_start ≠ hs) :
    run_hourly_aggregation table hs (run_hourly_aggregation table hs store)
      = run_hourly_aggregation table hs store ∧
    (∀ d : String,
      ((run_hourly_aggregation table hs store).filter
          (fun r => r.device_id == d && r.hour_start == hs)).length
        = if d ∈ (table.filter (inWindow hs)).map Reading.device_id then 1 else 0) := by
  have hreps : aggregate_hour table hs
      = (windowDevices table hs).map (aggregate_device table hs) := rfl
  have hhour : ∀ rep ∈ aggregate_hour table hs, rep.hour_start = hs := by
    intro rep hrep
    rw [hreps] at hrep
    rcases List.mem_map.mp hrep with ⟨d, _, rfl⟩
    rfl
  have hdisj : ∀ rep ∈ aggregate_hour table hs, ∀ r ∈ store,
      reportKeyMatch rep r = false := by
    intro rep hrep r hrmem
    exact reportKeyMatch_false_of_hour rep r
      (by rw [hhour rep hrep]; exact hstore r hrmem)
  have hnd : (windowDevices table hs).Nodup := List.nodup_dedup _
  have hpair : (aggregate_hour table hs).Pairwise
      (fun a b => reportKeyMatch b a = false) := by
    rw [hreps]
    refine List.Pairwise.map (aggregate_device table hs) ?_ hnd
    intro a b hab
    simp [reportKeyMatch, aggregate_device, hab]
  have hrun1 : run_hourly_aggregation table hs store
      = store ++ aggregate_hour table hs :=
    foldl_insert_fresh (aggregate_hour table hs) store hdisj hpair
  have huniq2 : ∀ rep ∈ aggregate_hour table hs,
      ∀ r ∈ store ++ aggregate_hour table hs,
      reportKeyMatch rep r = true → r = rep := by
    intro rep hrep r hrmem hk
    rcases List.mem_append.mp hrmem with hl | hr
    · rw [hdisj rep hrep r hl] at hk
      exact Bool.noConfusion hk
    · rw [hreps] at hrep hr
      rcases List.mem_map.mp hrep with ⟨db, _, rfl⟩
      rcases List.mem_map.mp hr with ⟨da, _, rfl⟩
      have hda : da = db := by
        simpa [reportKeyMatch, aggregate_device] using hk
      rw [hda]
  have hrun2 : run_hourly_aggregation table hs (run_hourly_aggregation table hs store)
      = run_hourly_aggregation table hs store := by
    rw [hrun1]
    exact foldl_insert_present (aggregate_hour table hs)
      (store ++ aggregate_hour table hs)
      (fun rep h => List.mem_append.mpr (Or.inr h)) huniq2
  refine ⟨hrun2, ?_⟩
  intro d
  rw [hrun1, List.filter_append]
  have hstorenil : store.filter (fun r => r.device_id == d && r.hour_start == hs)
      = [] := by
    rw [List.filter_eq_nil_iff]
    intro r hrmem
    simp [hstore r hrmem]
  rw [hstorenil, List.nil_append, hreps, List.filter_map, List.length_map]
  have hp : ∀ x ∈ windowDevices table hs,
      ((fun r => r.device_id == d && r.hour_start == hs) ∘
        aggregate_device table hs) x = (x == d) := by
    intro x _
    simp [aggregate_device, Function.comp]
  rw [List.filter_congr hp, ← List.countP_eq_length_filter]
  have hcount : (windowDevices table hs).countP (fun x => x == d)
      = (windowDevices table hs).count d := rfl
  rw [hcount]
  by_cases hd : d ∈ (table.filter (inWindow hs)).map Reading.device_id
  · rw [if_pos hd]
    exact List.count_eq_one_of_mem hnd (List.mem_dedup.mpr hd)
  · rw [if_neg hd]
    exact List.count_eq_zero_of_not_mem (fun hmem => hd (List.mem_dedup.mp hmem))

/-- Witness for C8: one reading (all sensor fields null) at `t = 10` in the
hour starting at 0, against an empty report store. -/
theorem C8_aggregation_idempotent_witness :
    (∀ r ∈ ([] : List HourlyReport), r.hour_start ≠ (0 : ℚ)) ∧
    run_hourly_aggregation
        [⟨"d", none, none, none, none, none, none, none, none, none,
          none, 0, 0, 0, 0, 0, 0, 10⟩] 0
        (run_hourly_aggregation
          [⟨"d", none, none, none, none, none, none, none, none, none,
            none, 0, 0, 0, 0, 0, 0, 10⟩] 0 [])
      = run_hourly_aggregation
          [⟨"d", none, none, none, none, none, none, none, none, none,
            none, 0, 0, 0, 0, 0, 0, 10⟩] 0 [] ∧
    ((run_hourly_aggregation
        [⟨"d", none, none, none, none, none, none, none, none, none,
          none, 0, 0, 0, 0, 0, 0, 10⟩] 0 []).filter
      (fun r => r.device_id == "d" && r.hour_start == (0 : ℚ))).length = 1 := by
  have hempty : ∀ r ∈ ([] : List HourlyReport), r.hour_start ≠ (0 : ℚ) := by
    intro r hr
    cases hr
  have h := C8_aggregation_idempotent
    ([⟨"d", none, none, none, none, none, none, none, none, none,
      none, 0, 0, 0, 0, 0, 0, 10⟩] : List Reading) 0 [] hempty
  refine ⟨hempty, h.1, ?_⟩
  have h2 := h.2 "d"
  rwa [if_pos (by decide)] at h2

end Pi5Hub
